import Mathlib

/-!
Shallow embedding of `src/src/llm/json_schema_to_gbnf.py`, a JSON-Schema to
GBNF compiler, together with theorems settling the frozen claims about it.

The Python values flowing through the compiler are modelled by `JVal`
(strings, arbitrary-precision integers, booleans, `None`, lists, and
string-keyed dicts in insertion order).  Python observable behaviour is
modelled explicitly where the compiler depends on it:

* dict membership / `dict.get` with a default (`jget`);
* truthiness (`truthy`) as used by `if not max_items`, `if not properties`,
  `if additional_props`;
* `==` against the integer literals 0 and 1 (`pyEqInt`), under which Python
  booleans compare equal to 0/1;
* f-string interpolation via `str()` (`pyStr`, with `repr` for containers;
  the escaping that `repr` performs on quotes and backslashes inside strings
  is not modelled, and no claim depends on it);
* iteration (`pyIter`) over lists, strings (characters), dicts (keys), and
  the `TypeError` on non-iterables;
* `dict.get` applied to an unhashable key (a list or dict), which raises
  `TypeError: unhashable type: ...`;
* the exception classes the code can raise or catch (`PyErr`): `ValueError`
  (the only class the code raises itself and the only one it catches inside
  `process_object`), `TypeError`, and `AttributeError`, each carrying the
  message that `str(e)` would produce.
-/

set_option maxHeartbeats 1000000
set_option linter.unusedVariables false

namespace JsonSchemaToGbnf

/-- A Python/JSON value as loaded by the schema loader. -/
inductive JVal where
  | str (s : String)
  | int (n : Int)
  | bool (b : Bool)
  | null
  | arr (xs : List JVal)
  | obj (kvs : List (String × JVal))

/-- Python exceptions relevant to the compiler, with their `str(e)` message. -/
inductive PyErr where
  | valueError (msg : String)
  | typeError (msg : String)
  | attributeError (msg : String)
deriving DecidableEq, Repr

/-- The message `str(e)` of an exception, as interpolated into wrappers. -/
def PyErr.msg : PyErr → String
  | .valueError m => m
  | .typeError m => m
  | .attributeError m => m

/-- Dict lookup: `kvs[k]` / `k in kvs` / `kvs.get(k)` (keys are unique in a
Python dict, so first-match lookup is exact). -/
def jget (k : String) : List (String × JVal) → Option JVal
  | [] => none
  | (kk, v) :: rest => if kk = k then some v else jget k rest

/-- Python truthiness of a value. -/
def truthy : JVal → Bool
  | .str s => s != ""
  | .int n => n != 0
  | .bool b => b
  | .null => false
  | .arr xs => !xs.isEmpty
  | .obj kvs => !kvs.isEmpty

/-- Python `v == t` for a string `t`: only a string value can compare equal. -/
def pyEqStr : JVal → String → Bool
  | .str s, t => s = t
  | _, _ => false

/-- Python `v == m` for an integer literal `m` (booleans equal 0/1). -/
def pyEqInt : JVal → Int → Bool
  | .int n, m => n = m
  | .bool b, m => (if b then (1 : Int) else 0) = m
  | _, _ => false

/-- A single-quote character, as it appears in Python error messages. -/
def sq : String := String.singleton (Char.ofNat 39)

/-- Python `repr` of a value (string escaping inside `repr` not modelled). -/
def pyRepr : JVal → String
  | .str s => sq ++ s ++ sq
  | .int n => toString n
  | .bool b => if b then "True" else "False"
  | .null => "None"
  | .arr xs => "[" ++ String.intercalate ", " (reprList xs) ++ "]"
  | .obj kvs => "\x7b" ++ String.intercalate ", " (reprObj kvs) ++ "\x7d"
where
  reprList : List JVal → List String
    | [] => []
    | x :: rest => pyRepr x :: reprList rest
  reprObj : List (String × JVal) → List String
    | [] => []
    | (k, v) :: rest => (sq ++ k ++ sq ++ ": " ++ pyRepr v) :: reprObj rest

/-- Python `str` of a value, as used by f-string interpolation. -/
def pyStr : JVal → String
  | .str s => s
  | v => pyRepr v

/-- Python type name of a value, as used in error messages. -/
def pyTypeName : JVal → String
  | .str _ => "str"
  | .int _ => "int"
  | .bool _ => "bool"
  | .null => "NoneType"
  | .arr _ => "list"
  | .obj _ => "dict"

/-- `TypeError: unhashable type: ...` message for lists and dicts. -/
def unhashableMsg (v : JVal) : String :=
  "unhashable type: " ++ sq ++ pyTypeName v ++ sq

/-- `TypeError: argument of type ... is not iterable` message. -/
def notIterableMsg (v : JVal) : String :=
  sq ++ pyTypeName v ++ sq ++ " object is not iterable"

/-- Whether a value is unhashable in Python (lists and dicts are). -/
def unhashable : JVal → Bool
  | .arr _ => true
  | .obj _ => true
  | _ => false

/-- Python iteration over a value: lists yield elements, strings yield
one-character strings, dicts yield their keys; other values raise
`TypeError`. -/
def pyIter : JVal → Except PyErr (List JVal)
  | .arr xs => .ok xs
  | .str s => .ok (s.toList.map fun c => JVal.str (String.singleton c))
  | .obj kvs => .ok (kvs.map fun kv => JVal.str kv.1)
  | v => .error (.typeError (notIterableMsg v))

/-- Python `set(v)`: iterate `v`, failing with `TypeError` on the first
unhashable element.  Deduplication is irrelevant for membership and is not
performed. -/
def pySet (v : JVal) : Except PyErr (List JVal) := do
  let xs ← pyIter v
  match xs.find? unhashable with
  | some u => .error (.typeError (unhashableMsg u))
  | none => .ok xs

/-- Double quoting applied by the f-string member builders. -/
def qt (s : String) : String := "\"" ++ s ++ "\""

/-- `AttributeError` message for `v.items()` on a non-dict value. -/
def noItemsAttrMsg (v : JVal) : String :=
  sq ++ pyTypeName v ++ sq ++ " object has no attribute " ++ sq ++ "items" ++ sq

/-- A value looked up in a dict is smaller than the backing list. -/
theorem jget_sizeOf_lt {k : String} {kvs : List (String × JVal)} {v : JVal}
    (h : jget k kvs = some v) : sizeOf v < sizeOf kvs := by
  induction kvs with
  | nil => simp [jget] at h
  | cons hd tl ih =>
    obtain ⟨kk, vv⟩ := hd
    simp only [jget] at h
    split at h
    · cases h; simp; omega
    · have := ih h; simp; omega

/-- `process_ref(ref)` from the source: the fixed unresolved-reference
placeholder; the target is never followed. -/
def process_ref (r : JVal) : String := "<ref>"

/-- `formats.get(definition["format"], "<string>")` from `process_string`:
the fixed format table, defaulting to the unconstrained string token.
`dict.get` hashes its key, so a list or dict key raises `TypeError`. -/
def formatsGet : JVal → Except PyErr String
  | JVal.arr xs => .error (.typeError (unhashableMsg (JVal.arr xs)))
  | JVal.obj m => .error (.typeError (unhashableMsg (JVal.obj m)))
  | JVal.str "date-time" => .ok "<datetime>"
  | JVal.str "date" => .ok "<date>"
  | JVal.str "email" => .ok "<email>"
  | JVal.str "uri" => .ok "<uri>"
  | _ => .ok "<string>"

/-- `process_string(definition)` from the source: `enum` first, else
`pattern`, else `format`, else the unconstrained string token. -/
def process_string (kvs : List (String × JVal)) : Except PyErr String :=
  match jget "enum" kvs with
  | some ev =>
    (pyIter ev).map fun vs =>
      "[" ++ String.intercalate " | " (vs.map fun v => qt (pyStr v)) ++ "]"
  | none =>
    match jget "pattern" kvs with
    | some pv => .ok ("<pattern " ++ pyStr pv ++ ">")
    | none =>
      match jget "format" kvs with
      | some fv => formatsGet fv
      | none => .ok "<string>"

/-- `isinstance(v, bool)` in Python. -/
def isPyBool : JVal → Bool
  | .bool _ => true
  | _ => false

/-- The boolean payload of a value known to be a Python bool. -/
def asPyBool : JVal → Bool
  | .bool b => b
  | _ => false

/-- Identification of the InvalidSchema failure of the spec taxonomy: the
compiler entry rejects a root that is not a map, or whose root type is not
the string for objects. -/
def InvalidSchema (e : PyErr) : Prop :=
  e = .valueError "Schema must be a dictionary" ∨
  e = .valueError "Root schema must be an object type"

/-- Identification of the UnsupportedType failure of the spec taxonomy: a
`ValueError` whose message starts with the unsupported-type text. -/
def isUnsupportedTypeMsg : PyErr → Bool
  | .valueError m => "Unsupported type: ".isPrefixOf m
  | _ => false

/-- Joining of the member rules with comma separators inside the output
braces, as done at the end of `process_object`. -/
def braceJoin (rules : List String) : String :=
  "\x7b " ++ String.intercalate ", " rules ++ " \x7d"

mutual

/-- `process_property(name, definition, is_required)` from the source: a
non-dict definition is rejected; a definition containing `$ref` short-circuits
to the reference placeholder; otherwise the member is built from the compiled
type, with the optional marker appended when not required. -/
def process_property (name : String) (defn : JVal) (is_required : Bool) :
    Except PyErr String :=
  match defn with
  | JVal.obj kvs =>
    match jget "$ref" kvs with
    | some r => .ok (process_ref r)
    | none =>
      match process_type (JVal.obj kvs) with
      | .error e => .error e
      | .ok t =>
        let property_rule := qt name ++ " : " ++ t
        .ok (if is_required then property_rule else property_rule ++ " | ε")
  | _ => .error (.valueError ("Invalid property definition for " ++ name))
termination_by 3 * sizeOf defn + 1

/-- `process_type(definition)` from the source: requires a `type` field and
dispatches on its value.  The non-dict cases model `"type" in definition`
on strings (substring test, then a failing string index), lists (membership
test, then a failing list index), and non-iterables (`TypeError`).  A list-
or dict-valued `type` raises `TypeError` when `type_handlers.get` hashes it. -/
def process_type : JVal → Except PyErr String
  | JVal.obj kvs =>
    (match h : jget "type" kvs with
     | none => .error (.valueError "Missing type in definition")
     | some (JVal.str "string") => process_string kvs
     | some (JVal.str "integer") => .ok "<integer>"
     | some (JVal.str "number") => .ok "<number>"
     | some (JVal.str "boolean") => .ok "<boolean>"
     | some (JVal.str "null") => .ok "null"
     | some (JVal.str "array") => process_array kvs
     | some (JVal.str "object") => process_object kvs
     | some (JVal.arr xs) => .error (.typeError (unhashableMsg (JVal.arr xs)))
     | some (JVal.obj m) => .error (.typeError (unhashableMsg (JVal.obj m)))
     | some tv => .error (.valueError ("Unsupported type: " ++ pyStr tv)))
  | JVal.str s =>
    if (s.splitOn "type").length > 1 then
      .error (.typeError "string indices must be integers")
    else .error (.valueError "Missing type in definition")
  | JVal.arr xs =>
    if xs.any (fun x => pyEqStr x "type") then
      .error (.typeError "list indices must be integers or slices, not str")
    else .error (.valueError "Missing type in definition")
  | v => .error (.typeError (notIterableMsg v))
termination_by v => 3 * sizeOf v

/-- `process_array(definition)` from the source: requires `items`, compiles
it, then picks the repetition quantifier from `minItems` (Python `==` against
0 and 1, default 0) and the truthiness of `maxItems` (default `""`). -/
def process_array (kvs : List (String × JVal)) : Except PyErr String :=
  match h : jget "items" kvs with
  | none => .error (.valueError "Array definition missing items")
  | some items =>
    match process_type items with
    | .error e => .error e
    | .ok items_type =>
      let min_items := (jget "minItems" kvs).getD (JVal.int 0)
      let max_items := (jget "maxItems" kvs).getD (JVal.str "")
      if pyEqInt min_items 0 && !truthy max_items then
        .ok ("[" ++ items_type ++ "*]")
      else if pyEqInt min_items 1 && !truthy max_items then
        .ok ("[" ++ items_type ++ "+]")
      else
        .ok ("[" ++ items_type ++ "]")
termination_by 3 * sizeOf kvs + 2
decreasing_by
  have h1 := jget_sizeOf_lt h
  omega

/-- `process_object(definition)` from the source: build the required set
(`set(...)` runs before the emptiness test and can raise `TypeError`), return
the empty-object fragment when `properties` is falsy, otherwise compile each
property in
declaration order and append the wildcard member for a truthy
`additionalProperties`. -/
def process_object (kvs : List (String × JVal)) : Except PyErr String :=
  match pySet ((jget "required" kvs).getD (JVal.arr [])) with
  | .error e => .error e
  | .ok required =>
    match h : jget "properties" kvs with
    | none => .ok "\x7b\x7d"
    | some (JVal.obj pkvs) =>
      if pkvs.isEmpty then .ok "\x7b\x7d"
      else
        match processProps pkvs required with
        | .error e => .error e
        | .ok rules =>
          match ha : jget "additionalProperties" kvs with
          | none => .ok (braceJoin rules)
          | some ap =>
            if truthy ap then
              if isPyBool ap then
                .ok (braceJoin (if asPyBool ap then rules ++ [qt "*" ++ " : <any>"] else rules))
              else
                match process_type ap with
                | .error e => .error e
                | .ok t => .ok (braceJoin (rules ++ [qt "*" ++ " : " ++ t]))
            else .ok (braceJoin rules)
    | some v =>
      if truthy v then .error (.attributeError (noItemsAttrMsg v))
      else .ok "\x7b\x7d"
termination_by 3 * sizeOf kvs + 2
decreasing_by
  · have h1 := jget_sizeOf_lt h
    have h2 : sizeOf (JVal.obj pkvs) = 1 + sizeOf pkvs := by simp
    omega
  · have h1 := jget_sizeOf_lt ha
    omega

/-- The `for name, prop in properties.items()` loop of `process_object`:
compile each property in order, wrapping the first `ValueError` with the
name of the offending property (only `ValueError` is caught). -/
def processProps (l : List (String × JVal)) (required : List JVal) :
    Except PyErr (List String) :=
  match l with
  | [] => .ok []
  | (name, prop) :: rest =>
    match process_property name prop (required.any fun x => pyEqStr x name) with
    | .error (.valueError m) =>
      .error (.valueError ("Error processing property " ++ sq ++ name ++ sq ++ ": " ++ m))
    | .error e => .error e
    | .ok r =>
      match processProps rest required with
      | .error e => .error e
      | .ok rs => .ok (r :: rs)
termination_by 3 * sizeOf l + 2

end

/-- `json_schema_to_gbnf(schema)` from the source: root validation (a dict
whose `type` equals `"object"`), then `process_object`, with any exception
escaping the body rewrapped by the outer handler as
`ValueError("Error processing schema: " + str(e))`. -/
def json_schema_to_gbnf (schema : JVal) : Except PyErr String :=
  match schema with
  | JVal.obj kvs =>
    if (match jget "type" kvs with
        | some t => pyEqStr t "object"
        | none => false) then
      match process_object kvs with
      | .ok s => .ok s
      | .error e => .error (.valueError ("Error processing schema: " ++ e.msg))
    else .error (.valueError "Root schema must be an object type")
  | _ => .error (.valueError "Schema must be a dictionary")

example :
    json_schema_to_gbnf (JVal.obj [("type", JVal.str "object"),
      ("properties", JVal.obj [("name", JVal.obj [("type", JVal.str "string")])]),
      ("required", JVal.arr [JVal.str "name"])]) =
    .ok ("\x7b " ++ qt "name" ++ " : <string> \x7d") := by
  simp [json_schema_to_gbnf, process_object, processProps, process_property,
    process_type, process_string, process_ref, jget, pySet, pyIter, pyEqStr,
    braceJoin, qt, truthy, pyStr, String.intercalate]
  rfl

example :
    json_schema_to_gbnf (JVal.obj [("type", JVal.str "object"),
      ("properties", JVal.obj [("name", JVal.obj [("type", JVal.str "string")])])]) =
    .ok ("\x7b " ++ qt "name" ++ " : <string> | ε \x7d") := by
  simp [json_schema_to_gbnf, process_object, processProps, process_property,
    process_type, process_string, process_ref, jget, pySet, pyIter, pyEqStr,
    braceJoin, qt, truthy, pyStr, String.intercalate]
  rfl

example : jget "a" [("b", JVal.int 1), ("a", JVal.null)] = some JVal.null := rfl
example : pyStr (JVal.arr [JVal.str "x", JVal.int 3]) = "[" ++ sq ++ "x" ++ sq ++ ", 3]" := rfl
example : pyEqInt (JVal.bool false) 0 = true := rfl
example : truthy (JVal.int 0) = false := rfl
example : pySet (JVal.int 3) = .error (.typeError (notIterableMsg (JVal.int 3))) := rfl

/-- Helper: building the required set from a list of string names succeeds
and yields exactly those names. -/
theorem pySet_strs (l : List String) : pySet (JVal.arr (l.map JVal.str)) = .ok (l.map JVal.str) := by
  have h : List.find? (unhashable ∘ JVal.str) l = none := by
    rw [List.find?_eq_none]
    intro x hx
    simp [Function.comp, unhashable]
  simp [pySet, pyIter, Except.bind, bind, h]

/-- C1 counterexample: the claim says any declared maxItems value yields the
unquantified bracket form, but a declared maxItems of 0 is falsy in Python,
so an array node with unset minItems and maxItems 0 still emits the
zero-or-more quantifier. -/
theorem C1_counterexample :
    process_array [("items", JVal.obj [("type", JVal.str "string")]), ("maxItems", JVal.int 0)] =
      .ok "[<string>*]" ∧ ("[<string>*]" : String) ≠ "[<string>]" := by
  constructor
  · simp [process_array, process_type, process_string, jget, pyEqInt, truthy]
  · decide

/-- C1 (amended): for an array node whose items compile to a fragment t,
minItems unset or 0 together with maxItems unset or declared as the falsy
value 0 emits the zero-or-more form; minItems 1 with maxItems unset or 0
emits the one-or-more form; minItems declared as an integer other than 0 and
1 emits the unquantified form; and any declared nonzero (truthy) maxItems
emits the unquantified form regardless of minItems. -/
theorem C1_array_quantifiers (kvs : List (String × JVal)) (items : JVal) (t : String)
    (hi : jget "items" kvs = some items) (ht : process_type items = .ok t) :
    ((jget "minItems" kvs = none ∨ jget "minItems" kvs = some (JVal.int 0)) →
      (jget "maxItems" kvs = none ∨ jget "maxItems" kvs = some (JVal.int 0)) →
      process_array kvs = .ok ("[" ++ t ++ "*]")) ∧
    ((jget "minItems" kvs = some (JVal.int 1)) →
      (jget "maxItems" kvs = none ∨ jget "maxItems" kvs = some (JVal.int 0)) →
      process_array kvs = .ok ("[" ++ t ++ "+]")) ∧
    (∀ m : Int, jget "minItems" kvs = some (JVal.int m) → m ≠ 0 → m ≠ 1 →
      process_array kvs = .ok ("[" ++ t ++ "]")) ∧
    (∀ n : Int, jget "maxItems" kvs = some (JVal.int n) → n ≠ 0 →
      process_array kvs = .ok ("[" ++ t ++ "]")) := by
  refine ⟨?_, ?_, ?_, ?_⟩
  · rintro (hmin | hmin) (hmax | hmax) <;>
      (rw [process_array.eq_def, hi]; simp [ht, hmin, hmax, pyEqInt, truthy])
  · rintro hmin (hmax | hmax) <;>
      (rw [process_array.eq_def, hi]; simp [ht, hmin, hmax, pyEqInt, truthy])
  · intro m hmin hm0 hm1
    rw [process_array.eq_def, hi]
    simp [ht, hmin, pyEqInt, hm0, hm1]
  · intro n hmax hn0
    rw [process_array.eq_def, hi]
    simp [ht, hmax, pyEqInt, truthy, hn0]

/-- C1 witness: a concrete array node with minItems 2 emits the unquantified
bracket form. -/
theorem C1_witness :
    jget "items" [("items", JVal.obj [("type", JVal.str "string")]), ("minItems", JVal.int 2)] =
        some (JVal.obj [("type", JVal.str "string")]) ∧
      process_array [("items", JVal.obj [("type", JVal.str "string")]), ("minItems", JVal.int 2)] =
        .ok "[<string>]" := by
  have ht : process_type (JVal.obj [("type", JVal.str "string")]) = .ok "<string>" := by
    simp [process_type, process_string, jget]
  refine ⟨rfl, ?_⟩
  exact (C1_array_quantifiers
    [("items", JVal.obj [("type", JVal.str "string")]), ("minItems", JVal.int 2)]
    (JVal.obj [("type", JVal.str "string")]) "<string>" rfl ht).2.2.1 2 rfl
    (by decide) (by decide)

/-- C2 counterexample: the claim extends the optional-marker rule to
properties defined by a reference, but a non-required property whose
definition contains a reference key emits only the bare placeholder, with no
name binding and no optional marker. -/
theorem C2_counterexample :
    process_property "a" (JVal.obj [("$ref", JVal.str "#/defs/x")]) false = .ok "<ref>" ∧
      ("<ref>".endsWith " | ε") = false := by
  constructor
  · simp [process_property, process_ref, jget]
  · decide

/-- C2 (amended): for a declared object property whose definition is a map
without a reference key, the member is the quoted name, a colon, the compiled
fragment, and the optional marker appended exactly when the property is not
required; a definition containing a reference key short-circuits to the bare
placeholder regardless of requiredness. -/
theorem C2_property_member (name : String) (kvs : List (String × JVal)) (req : Bool) :
    (∀ t, jget "$ref" kvs = none → process_type (JVal.obj kvs) = .ok t →
      process_property name (JVal.obj kvs) req =
        .ok (qt name ++ " : " ++ t ++ if req then "" else " | ε")) ∧
    (∀ r, jget "$ref" kvs = some r →
      process_property name (JVal.obj kvs) req = .ok "<ref>") := by
  constructor
  · intro t href ht
    rw [process_property.eq_def]
    simp [href, ht]
    cases req <;> simp [String.append_assoc]
  · intro r href
    rw [process_property.eq_def]
    simp [href, process_ref]

/-- C2 witness: concrete members for an optional property, a required
property, and a reference-defined property. -/
theorem C2_witness :
    process_property "name" (JVal.obj [("type", JVal.str "string")]) false =
        .ok (qt "name" ++ " : <string> | ε") ∧
      process_property "name" (JVal.obj [("type", JVal.str "string")]) true =
        .ok (qt "name" ++ " : <string>") ∧
      process_property "b" (JVal.obj [("$ref", JVal.str "#/x")]) true = .ok "<ref>" := by
  have ht : process_type (JVal.obj [("type", JVal.str "string")]) = .ok "<string>" := by
    simp [process_type, process_string, jget]
  refine ⟨?_, ?_, ?_⟩
  · have h := (C2_property_member "name" [("type", JVal.str "string")] false).1 "<string>" rfl ht
    simpa using h
  · have h := (C2_property_member "name" [("type", JVal.str "string")] true).1 "<string>" rfl ht
    simpa using h
  · exact (C2_property_member "b" [("$ref", JVal.str "#/x")] true).2 (JVal.str "#/x") rfl

/-- C3 counterexample: the claim says any format value outside the fixed
table yields the unconstrained string token, but a list-valued format is
unhashable, so the table lookup raises a TypeError instead. -/
theorem C3_counterexample :
    process_string [("format", JVal.arr [JVal.str "date"])] =
        .error (.typeError (unhashableMsg (JVal.arr [JVal.str "date"]))) ∧
      Except.error (PyErr.typeError (unhashableMsg (JVal.arr [JVal.str "date"]))) ≠
        (Except.ok "<string>" : Except PyErr String) := by
  constructor
  · rfl
  · intro h
    cases h

/-- C3 (amended): for a string node exactly one constraint is consulted, in
priority enum, then pattern, then format, then the unconstrained fallback;
enum yields the bracketed alternation of quoted values in declaration order,
pattern yields the opaque marker with the raw pattern text, format maps
date-time, date, email and uri through the fixed table with every other
string or hashable scalar falling back to the unconstrained token, and with
none of the three the unconstrained token is emitted. -/
theorem C3_string_priority (kvs : List (String × JVal)) :
    (∀ vs, jget "enum" kvs = some (JVal.arr vs) →
      process_string kvs =
        .ok ("[" ++ String.intercalate " | " (vs.map fun v => qt (pyStr v)) ++ "]")) ∧
    (∀ p, jget "enum" kvs = none → jget "pattern" kvs = some (JVal.str p) →
      process_string kvs = .ok ("<pattern " ++ p ++ ">")) ∧
    (∀ f, jget "enum" kvs = none → jget "pattern" kvs = none →
      jget "format" kvs = some (JVal.str f) →
      process_string kvs = .ok (if f = "date-time" then "<datetime>"
        else if f = "date" then "<date>" else if f = "email" then "<email>"
        else if f = "uri" then "<uri>" else "<string>")) ∧
    (∀ fv, jget "enum" kvs = none → jget "pattern" kvs = none →
      jget "format" kvs = some fv →
      (fv = JVal.null ∨ (∃ n, fv = JVal.int n) ∨ (∃ b, fv = JVal.bool b)) →
      process_string kvs = .ok "<string>") ∧
    (jget "enum" kvs = none → jget "pattern" kvs = none → jget "format" kvs = none →
      process_string kvs = .ok "<string>") := by
  refine ⟨?_, ?_, ?_, ?_, ?_⟩
  · intro vs he
    simp [process_string, he, pyIter, Except.map]
  · intro p he hp
    simp [process_string, he, hp, pyStr]
  · intro f he hp hf
    simp only [process_string, he, hp, hf]
    rw [formatsGet.eq_def]
    split <;> simp_all
  · rintro fv he hp hf (h | ⟨n, h⟩ | ⟨b, h⟩) <;>
      (subst h; simp [process_string, he, hp, hf, formatsGet])
  · intro he hp hf
    simp [process_string, he, hp, hf]

/-- C3 witness: concrete string nodes exercising the priority order, the
format table, the unrecognised-format fallback, and the bare fallback. -/
theorem C3_witness :
    process_string [("enum", JVal.arr [JVal.str "a", JVal.str "b"]),
        ("pattern", JVal.str "x+"), ("format", JVal.str "date")] =
      .ok ("[" ++ qt "a" ++ " | " ++ qt "b" ++ "]") ∧
    process_string [("pattern", JVal.str "x+"), ("format", JVal.str "date")] =
      .ok "<pattern x+>" ∧
    process_string [("format", JVal.str "date")] = .ok "<date>" ∧
    process_string [("format", JVal.str "mystery")] = .ok "<string>" ∧
    process_string [("format", JVal.int 7)] = .ok "<string>" ∧
    process_string [("minLength", JVal.int 3)] = .ok "<string>" := by
  refine ⟨?_, ?_, ?_, ?_, ?_, ?_⟩
  · have h := (C3_string_priority [("enum", JVal.arr [JVal.str "a", JVal.str "b"]),
      ("pattern", JVal.str "x+"), ("format", JVal.str "date")]).1
      [JVal.str "a", JVal.str "b"] rfl
    simpa [String.intercalate, pyStr, qt] using h
  · exact (C3_string_priority _).2.1 "x+" rfl rfl
  · have h := (C3_string_priority [("format", JVal.str "date")]).2.2.1 "date" rfl rfl rfl
    simpa using h
  · have h := (C3_string_priority [("format", JVal.str "mystery")]).2.2.1 "mystery" rfl rfl rfl
    simpa using h
  · exact (C3_string_priority _).2.2.2.1 (JVal.int 7) rfl rfl rfl (Or.inr (Or.inl ⟨7, rfl⟩))
  · exact (C3_string_priority _).2.2.2.2 rfl rfl rfl

/-- C4: an object node whose properties mapping is empty or absent compiles
to the literal empty-object fragment regardless of additionalProperties,
provided the required field is absent or a list of names as the data model
prescribes (the required set is built before the emptiness test). -/
theorem C4_empty_properties (kvs : List (String × JVal)) (req : List String)
    (hreq : jget "required" kvs = none ∨
      jget "required" kvs = some (JVal.arr (req.map JVal.str)))
    (hprops : jget "properties" kvs = none ∨ jget "properties" kvs = some (JVal.obj [])) :
    process_object kvs = .ok "\x7b\x7d" := by
  rw [process_object.eq_def]
  have hset : pySet ((jget "required" kvs).getD (JVal.arr [])) =
      .ok (req.map JVal.str) ∨
      pySet ((jget "required" kvs).getD (JVal.arr [])) = .ok [] := by
    rcases hreq with h | h
    · right
      rw [h]
      rfl
    · left
      rw [h]
      exact pySet_strs req
  rcases hprops with hp | hp <;> rcases hset with hs | hs <;>
    (rw [hs, hp]; try rfl)

/-- C4 witness: empty or absent properties with a truthy
additionalProperties still yield the empty-object fragment. -/
theorem C4_witness :
    process_object [("properties", JVal.obj []), ("additionalProperties", JVal.bool true)] =
        .ok "\x7b\x7d" ∧
      process_object [("additionalProperties", JVal.bool true), ("required", JVal.arr [JVal.str "name"])] =
        .ok "\x7b\x7d" := by
  constructor
  · exact C4_empty_properties _ [] (Or.inl rfl) (Or.inr rfl)
  · exact C4_empty_properties _ ["name"] (Or.inr rfl) (Or.inl rfl)

/-- C5: an input whose root is not a map, or whose root type field is not
the object string, fails with the InvalidSchema error of the spec taxonomy
and produces no grammar output. -/
theorem C5_root_validation (v : JVal) :
    ((∀ kvs, v ≠ JVal.obj kvs) →
      json_schema_to_gbnf v = .error (.valueError "Schema must be a dictionary") ∧
        ∃ e, json_schema_to_gbnf v = .error e ∧ InvalidSchema e) ∧
    (∀ kvs, v = JVal.obj kvs → jget "type" kvs ≠ some (JVal.str "object") →
      json_schema_to_gbnf v = .error (.valueError "Root schema must be an object type") ∧
        ∃ e, json_schema_to_gbnf v = .error e ∧ InvalidSchema e) := by
  constructor
  · intro hnd
    have h : json_schema_to_gbnf v = .error (.valueError "Schema must be a dictionary") := by
      cases v with
      | obj kvs => exact absurd rfl (hnd kvs)
      | str s => rfl
      | int n => rfl
      | bool b => rfl
      | null => rfl
      | arr xs => rfl
    exact ⟨h, _, h, Or.inl rfl⟩
  · intro kvs hv hty
    subst hv
    have hcond : (match jget "type" kvs with
        | some t => pyEqStr t "object"
        | none => false) = false := by
      cases h : jget "type" kvs with
      | none => rfl
      | some t =>
        cases t <;> simp_all [pyEqStr]
    have h : json_schema_to_gbnf (JVal.obj kvs) =
        .error (.valueError "Root schema must be an object type") := by
      simp [json_schema_to_gbnf, hcond]
    exact ⟨h, _, h, Or.inr rfl⟩

/-- C5 witness: a list root and a map root with an array type both fail
with the corresponding InvalidSchema message. -/
theorem C5_witness :
    json_schema_to_gbnf (JVal.arr []) = .error (.valueError "Schema must be a dictionary") ∧
      json_schema_to_gbnf (JVal.obj [("type", JVal.str "array")]) =
        .error (.valueError "Root schema must be an object type") := by
  constructor
  · exact ((C5_root_validation (JVal.arr [])).1 (fun kvs h => by cases h)).1
  · exact ((C5_root_validation (JVal.obj [("type", JVal.str "array")])).2
      [("type", JVal.str "array")] rfl (by simp [jget])).1

/-- C6 counterexample: the claim says every unsupported type value fails
with UnsupportedType carrying the offending name, but a list-valued type is
unhashable, so the handler-table lookup raises a TypeError whose message is
not the UnsupportedType message. -/
theorem C6_counterexample :
    process_type (JVal.obj [("type", JVal.arr [JVal.str "string"])]) =
        .error (.typeError (unhashableMsg (JVal.arr [JVal.str "string"]))) ∧
      isUnsupportedTypeMsg (.typeError (unhashableMsg (JVal.arr [JVal.str "string"]))) = false := by
  constructor
  · simp only [process_type.eq_def]
    rw [show jget "type" [("type", JVal.arr [JVal.str "string"])] =
      some (JVal.arr [JVal.str "string"]) from rfl]
  · rfl

/-- C6 (amended): type dispatch fails closed: a node lacking a type field
fails with the MissingType error; a string type outside the seven supported
names, and any number, boolean or null type value, fails with UnsupportedType
carrying the Python rendering of the offending value; a list- or dict-valued
type fails with the unhashable-key TypeError; nothing unrecognised is passed
through. -/
theorem C6_type_dispatch (kvs : List (String × JVal)) :
    (jget "type" kvs = none →
      process_type (JVal.obj kvs) = .error (.valueError "Missing type in definition")) ∧
    (∀ s, jget "type" kvs = some (JVal.str s) →
      s ∉ (["object", "array", "string", "integer", "number", "boolean", "null"] : List String) →
      process_type (JVal.obj kvs) = .error (.valueError ("Unsupported type: " ++ s))) ∧
    (∀ n : Int, jget "type" kvs = some (JVal.int n) →
      process_type (JVal.obj kvs) = .error (.valueError ("Unsupported type: " ++ toString n))) ∧
    (∀ b, jget "type" kvs = some (JVal.bool b) →
      process_type (JVal.obj kvs) =
        .error (.valueError ("Unsupported type: " ++ if b then "True" else "False"))) ∧
    (jget "type" kvs = some JVal.null →
      process_type (JVal.obj kvs) = .error (.valueError "Unsupported type: None")) ∧
    (∀ xs, jget "type" kvs = some (JVal.arr xs) →
      process_type (JVal.obj kvs) = .error (.typeError (unhashableMsg (JVal.arr xs)))) ∧
    (∀ m, jget "type" kvs = some (JVal.obj m) →
      process_type (JVal.obj kvs) = .error (.typeError (unhashableMsg (JVal.obj m)))) := by
  refine ⟨?_, ?_, ?_, ?_, ?_, ?_, ?_⟩
  · intro h
    simp only [process_type.eq_def]
    rw [h]
  · intro s h hs
    simp only [process_type.eq_def]
    rw [h]
    split <;> simp_all [pyStr]
    rename_i heq
    subst heq
    rfl
  · intro n h
    simp only [process_type.eq_def]
    rw [h]
    rfl
  · intro b h
    simp only [process_type.eq_def]
    rw [h]
    cases b <;> rfl
  · intro h
    simp only [process_type.eq_def]
    rw [h]
    rfl
  · intro xs h
    simp only [process_type.eq_def]
    rw [h]
  · intro m h
    simp only [process_type.eq_def]
    rw [h]

/-- C6 witness: concrete nodes with a missing type, an unknown string type,
an integer type and a boolean type all fail as dispatched. -/
theorem C6_witness :
    process_type (JVal.obj [("title", JVal.str "x")]) =
        .error (.valueError "Missing type in definition") ∧
      process_type (JVal.obj [("type", JVal.str "tuple")]) =
        .error (.valueError ("Unsupported type: " ++ "tuple")) ∧
      process_type (JVal.obj [("type", JVal.int 3)]) =
        .error (.valueError ("Unsupported type: " ++ toString (3 : Int))) ∧
      process_type (JVal.obj [("type", JVal.bool true)]) =
        .error (.valueError ("Unsupported type: " ++ "True")) := by
  refine ⟨?_, ?_, ?_, ?_⟩
  · exact (C6_type_dispatch [("title", JVal.str "x")]).1 rfl
  · exact (C6_type_dispatch [("type", JVal.str "tuple")]).2.1 "tuple" rfl (by decide)
  · exact (C6_type_dispatch [("type", JVal.int 3)]).2.2.1 3 rfl
  · have h := (C6_type_dispatch [("type", JVal.bool true)]).2.2.2.1 true rfl
    simpa using h

/-- C7: compilation is a total function of the finite input tree, so every
run returns a fragment or an error (the Lean definitions are accepted by the
termination checker, which witnesses termination of the recursion), and the
reference emitter never follows its argument, returning the fixed placeholder
for every reference. -/
theorem C7_termination (v : JVal) :
    ((∃ s, json_schema_to_gbnf v = .ok s) ∨ (∃ e, json_schema_to_gbnf v = .error e)) ∧
      (∀ r, process_ref r = "<ref>") := by
  constructor
  · cases h : json_schema_to_gbnf v with
    | ok s => exact Or.inl ⟨s, rfl⟩
    | error e => exact Or.inr ⟨e, rfl⟩
  · intro r
    rfl

/-- Helper: the property loop on an empty mapping yields no rules. -/
theorem processProps_nil (rset : List JVal) : processProps [] rset = .ok [] := by
  rw [processProps.eq_def]

/-- Helper: the property loop distributes over list append when the first
part succeeds. -/
theorem processProps_append (l1 l2 : List (String × JVal)) (rset : List JVal) :
    ∀ rs, processProps l1 rset = .ok rs →
      processProps (l1 ++ l2) rset =
        (match processProps l2 rset with
         | .error e => .error e
         | .ok rs2 => .ok (rs ++ rs2)) := by
  induction l1 with
  | nil =>
    intro rs h
    rw [processProps_nil] at h
    injection h with h
    subst h
    simp only [List.nil_append]
    cases processProps l2 rset <;> simp
  | cons hd tl ih =>
    obtain ⟨name, prop⟩ := hd
    intro rs h
    rw [processProps.eq_2] at h
    cases hpp : process_property name prop (rset.any fun x => pyEqStr x name) with
    | error e =>
      rw [hpp] at h
      cases e <;> simp at h
    | ok r =>
      rw [hpp] at h
      cases hrest : processProps tl rset with
      | error e =>
        rw [hrest] at h
        simp at h
      | ok rs2 =>
        rw [hrest] at h
        simp at h
        subst h
        rw [List.cons_append, processProps.eq_2, hpp, ih rs2 hrest]
        cases processProps l2 rset <;> simp

/-- C8: reference indirection is recognised only when a property definition
is inspected: an array items definition containing only a reference and no
type fails with the missing-type error, an additionalProperties schema
containing only a reference likewise fails, while a property definition
containing a reference emits the placeholder. -/
theorem C8_ref_detection_scope :
    (∀ kvs itemkvs, jget "items" kvs = some (JVal.obj itemkvs) →
      (∃ r, jget "$ref" itemkvs = some r) → jget "type" itemkvs = none →
      process_array kvs = .error (.valueError "Missing type in definition")) ∧
    (∀ name r, process_object
        [("properties", JVal.obj [(name, JVal.obj [("type", JVal.str "string")])]),
         ("additionalProperties", JVal.obj [("$ref", JVal.str r)])] =
      .error (.valueError "Missing type in definition")) ∧
    (∀ name r req, process_property name (JVal.obj [("$ref", JVal.str r)]) req = .ok "<ref>") := by
  refine ⟨?_, ?_, ?_⟩
  · intro kvs itemkvs hi href htype
    have ht : process_type (JVal.obj itemkvs) = .error (.valueError "Missing type in definition") := by
      simp only [process_type.eq_def]
      rw [htype]
    rw [process_array.eq_def, hi]
    simp [ht]
  · intro name r
    simp [process_object, processProps, process_property, process_type, process_string,
      jget, pySet, pyIter, truthy, isPyBool, Except.bind, bind, braceJoin]
  · intro name r req
    simp [process_property, process_ref, jget]

/-- C8 witness: concrete array and object nodes whose reference-only items
and additionalProperties fail with the missing-type error. -/
theorem C8_witness :
    jget "items" [("items", JVal.obj [("$ref", JVal.str "#/defs/item")])] =
        some (JVal.obj [("$ref", JVal.str "#/defs/item")]) ∧
      process_array [("items", JVal.obj [("$ref", JVal.str "#/defs/item")])] =
        .error (.valueError "Missing type in definition") ∧
      process_object
          [("properties", JVal.obj [("a", JVal.obj [("type", JVal.str "string")])]),
           ("additionalProperties", JVal.obj [("$ref", JVal.str "#/defs/extra")])] =
        .error (.valueError "Missing type in definition") := by
  refine ⟨rfl, ?_, ?_⟩
  · exact C8_ref_detection_scope.1 [("items", JVal.obj [("$ref", JVal.str "#/defs/item")])]
      [("$ref", JVal.str "#/defs/item")] rfl ⟨JVal.str "#/defs/item", rfl⟩ rfl
  · exact C8_ref_detection_scope.2.1 "a" "#/defs/extra"

/-- C9: for an object node with at least one declared property, an
additionalProperties equal to the empty schema map (or absent, or false)
emits no wildcard member, boolean true appends the any-value wildcard, and a
non-empty schema map appends a wildcard carrying its compiled fragment: the
wildcard branch runs only for truthy values. -/
theorem C9_wildcard_truthiness (kvs : List (String × JVal)) (pkvs : List (String × JVal))
    (required : List JVal) (rules : List String)
    (hreq : pySet ((jget "required" kvs).getD (JVal.arr [])) = .ok required)
    (hp : jget "properties" kvs = some (JVal.obj pkvs))
    (hne : pkvs.isEmpty = false)
    (hrules : processProps pkvs required = .ok rules) :
    (jget "additionalProperties" kvs = none → process_object kvs = .ok (braceJoin rules)) ∧
    (jget "additionalProperties" kvs = some (JVal.obj []) →
      process_object kvs = .ok (braceJoin rules)) ∧
    (jget "additionalProperties" kvs = some (JVal.bool false) →
      process_object kvs = .ok (braceJoin rules)) ∧
    (jget "additionalProperties" kvs = some (JVal.bool true) →
      process_object kvs = .ok (braceJoin (rules ++ [qt "*" ++ " : <any>"]))) ∧
    (∀ akvs t, jget "additionalProperties" kvs = some (JVal.obj akvs) →
      akvs.isEmpty = false → process_type (JVal.obj akvs) = .ok t →
      process_object kvs = .ok (braceJoin (rules ++ [qt "*" ++ " : " ++ t]))) := by
  refine ⟨?_, ?_, ?_, ?_, ?_⟩
  · intro ha
    rw [process_object.eq_def, hreq, hp, ha]
    simp [hne, hrules]
  · intro ha
    rw [process_object.eq_def, hreq, hp, ha]
    simp [hne, hrules, truthy]
  · intro ha
    rw [process_object.eq_def, hreq, hp, ha]
    simp [hne, hrules, truthy]
  · intro ha
    rw [process_object.eq_def, hreq, hp, ha]
    simp [hne, hrules, truthy, isPyBool, asPyBool]
  · intro akvs t ha hane hat
    rw [process_object.eq_def, hreq, hp, ha]
    have htr : truthy (JVal.obj akvs) = true := by
      simp [truthy, hane]
    simp [hne, hrules, htr, isPyBool, hat]

/-- C9 witness: concrete object nodes with empty-map, boolean true and
schema-map additionalProperties. -/
theorem C9_witness :
    process_object [("properties", JVal.obj [("a", JVal.obj [("type", JVal.str "integer")])]),
        ("additionalProperties", JVal.obj [])] =
      .ok (braceJoin [qt "a" ++ " : <integer>" ++ " | ε"]) ∧
    process_object [("properties", JVal.obj [("a", JVal.obj [("type", JVal.str "integer")])]),
        ("additionalProperties", JVal.bool true)] =
      .ok (braceJoin [qt "a" ++ " : <integer>" ++ " | ε", qt "*" ++ " : <any>"]) ∧
    process_object [("properties", JVal.obj [("a", JVal.obj [("type", JVal.str "integer")])]),
        ("additionalProperties", JVal.obj [("type", JVal.str "number")])] =
      .ok (braceJoin [qt "a" ++ " : <integer>" ++ " | ε", qt "*" ++ " : <number>"]) := by
  have hrules : processProps [("a", JVal.obj [("type", JVal.str "integer")])] [] =
      .ok [qt "a" ++ " : <integer>" ++ " | ε"] := by
    simp [processProps, process_property, process_type, jget, pyEqStr, qt, String.append_assoc]
  refine ⟨?_, ?_, ?_⟩
  · exact (C9_wildcard_truthiness
      [("properties", JVal.obj [("a", JVal.obj [("type", JVal.str "integer")])]),
       ("additionalProperties", JVal.obj [])]
      [("a", JVal.obj [("type", JVal.str "integer")])] [] _ rfl rfl rfl hrules).2.1 rfl
  · exact (C9_wildcard_truthiness
      [("properties", JVal.obj [("a", JVal.obj [("type", JVal.str "integer")])]),
       ("additionalProperties", JVal.bool true)]
      [("a", JVal.obj [("type", JVal.str "integer")])] [] _ rfl rfl rfl hrules).2.2.2.1 rfl
  · have hat : process_type (JVal.obj [("type", JVal.str "number")]) = .ok "<number>" := by
      simp [process_type, jget]
    exact (C9_wildcard_truthiness
      [("properties", JVal.obj [("a", JVal.obj [("type", JVal.str "integer")])]),
       ("additionalProperties", JVal.obj [("type", JVal.str "number")])]
      [("a", JVal.obj [("type", JVal.str "integer")])] [] _ rfl rfl rfl hrules).2.2.2.2
      [("type", JVal.str "number")] "<number>" rfl rfl hat

/-- C10: a property whose definition is not a map fails with the
invalid-definition ValueError; inside an object every such failure is wrapped
with the name of the offending property; and the top-level compiler wraps the
propagated message, returning an error and no partial grammar output. -/
theorem C10_invalid_property_definition :
    (∀ name defn req, (∀ m, defn ≠ JVal.obj m) →
      process_property name defn req =
        .error (.valueError ("Invalid property definition for " ++ name))) ∧
    (∀ pre rset rs name defn rest, processProps pre rset = .ok rs →
      (∀ m, defn ≠ JVal.obj m) →
      processProps (pre ++ (name, defn) :: rest) rset =
        .error (.valueError ("Error processing property " ++ sq ++ name ++ sq ++
          ": " ++ ("Invalid property definition for " ++ name)))) ∧
    (∀ kvs m, jget "type" kvs = some (JVal.str "object") →
      process_object kvs = .error (.valueError m) →
      json_schema_to_gbnf (JVal.obj kvs) =
        .error (.valueError ("Error processing schema: " ++ m))) := by
  have h1 : ∀ name defn req, (∀ m, defn ≠ JVal.obj m) →
      process_property name defn req =
        .error (.valueError ("Invalid property definition for " ++ name)) := by
    intro name defn req hnd
    cases defn with
    | obj m => exact absurd rfl (hnd m)
    | str s => rw [process_property.eq_def]
    | int n => rw [process_property.eq_def]
    | bool b => rw [process_property.eq_def]
    | null => rw [process_property.eq_def]
    | arr xs => rw [process_property.eq_def]
  refine ⟨h1, ?_, ?_⟩
  · intro pre rset rs name defn rest hpre hnd
    rw [processProps_append pre ((name, defn) :: rest) rset rs hpre,
      processProps.eq_2, h1 name defn (rset.any fun x => pyEqStr x name) hnd]
  · intro kvs m hty hobj
    have hcond : (match jget "type" kvs with
        | some t => pyEqStr t "object"
        | none => false) = true := by
      rw [hty]
      rfl
    simp [json_schema_to_gbnf, hcond, hobj, PyErr.msg]

/-- C10 witness: a concrete object with a string-valued property definition
fails end to end with a wrapped message naming the property. -/
theorem C10_witness :
    processProps [("a", JVal.obj [("type", JVal.str "string")]), ("b", JVal.str "oops")] [] =
        .error (.valueError ("Error processing property " ++ sq ++ "b" ++ sq ++
          ": " ++ ("Invalid property definition for " ++ "b"))) ∧
      json_schema_to_gbnf (JVal.obj [("type", JVal.str "object"),
          ("properties", JVal.obj [("b", JVal.str "oops")])]) =
        .error (.valueError ("Error processing schema: " ++
          ("Error processing property " ++ sq ++ "b" ++ sq ++
            ": " ++ ("Invalid property definition for " ++ "b")))) := by
  have hpre : processProps [("a", JVal.obj [("type", JVal.str "string")])] [] =
      .ok [qt "a" ++ " : <string>" ++ " | ε"] := by
    simp [processProps, process_property, process_type, process_string, jget, pyEqStr,
      String.append_assoc]
  constructor
  · have h := C10_invalid_property_definition.2.1
      [("a", JVal.obj [("type", JVal.str "string")])] [] [qt "a" ++ " : <string>" ++ " | ε"]
      "b" (JVal.str "oops") [] hpre (by intro m h; cases h)
    simpa using h
  · have hobj : process_object [("type", JVal.str "object"),
        ("properties", JVal.obj [("b", JVal.str "oops")])] =
        .error (.valueError ("Error processing property " ++ sq ++ "b" ++ sq ++
          ": " ++ ("Invalid property definition for " ++ "b"))) := by
      have h := C10_invalid_property_definition.2.1 [] [] [] "b" (JVal.str "oops") []
        (processProps_nil []) (by intro m h; cases h)
      simp at h
      rw [process_object.eq_def]
      simp [jget, pySet, pyIter, Except.bind, bind, h]
    exact C10_invalid_property_definition.2.2 _ _ (by simp [jget]) hobj

end JsonSchemaToGbnf
